import Mathlib

/-!
Verification development for the AI-messenger repository.

Strings are modelled as `List Char` (Python `str`), so that substring
search, slicing and trimming can be reasoned about directly.  Each
definition below is a shallow embedding of one Python function of the
repository; the embedded source location is named in its doc comment.
-/

set_option maxRecDepth 4000

/-- Association-list lookup, modelling Python `dict.get` on a
string-keyed dict (insertion-ordered, first binding wins). -/
def alookup {α : Type} : List (List Char × α) → List Char → Option α
  | [], _ => none
  | (k, v) :: rest, key => if k = key then some v else alookup rest key

/-- Python `tag in text`: `pat` occurs as a contiguous substring of `s`. -/
def containsSub (pat : List Char) : List Char → Bool
  | [] => pat.isPrefixOf []
  | c :: rest => pat.isPrefixOf (c :: rest) || containsSub pat rest

/-- Python `text.split(tag)[0]`: the part of `s` strictly before the first
occurrence of `pat` (all of `s` when `pat` does not occur). -/
def cutBefore (pat : List Char) : List Char → List Char
  | [] => []
  | c :: rest => if pat.isPrefixOf (c :: rest) then [] else c :: cutBefore pat rest

/-- Leading-whitespace removal (Python `str.lstrip`). -/
def lstrip (s : List Char) : List Char := s.dropWhile Char.isWhitespace

/-- Trailing-whitespace removal (Python `str.rstrip`). -/
def rstrip (s : List Char) : List Char :=
  (s.reverse.dropWhile Char.isWhitespace).reverse

/-- Python `str.strip()`. -/
def pyStrip (s : List Char) : List Char := rstrip (lstrip s)

/-- Python `lst[-n:]` for `n ≥ 1`: the most recent `n` elements.
(The repository only uses this slice with the positive constants 100 and 15.) -/
def pySliceLast {α : Type} (n : Nat) (l : List α) : List α := l.drop (l.length - n)

/-- Python `", ".join(names)`. -/
def joinComma : List (List Char) → List Char
  | [] => []
  | [s] => s
  | s :: rest => s ++ ", ".data ++ joinComma rest

namespace MessengerAPI

/-- The fixed cut-marker list of `MessengerAPI.clean_text` /
`APIManager._clean_text` (src/api_handler.py line 311, src/core/api_manager.py
line 139): `["СТОП", "INST", "Human:", "Assistant:", "###"]`. -/
def cut_tags : List (List Char) :=
  ["СТОП".data, "INST".data, "Human:".data, "Assistant:".data, "###".data]

/-- The sequential marker-truncation loop shared by both normalizers:
`for tag in cut_tags: if tag in text: text = text.split(tag)[0]`. -/
def cutPass (text : List Char) : List Char :=
  cut_tags.foldl (fun t tag => if containsSub tag t then cutBefore tag t else t) text

/-- Sentinel returned by `MessengerAPI.clean_text` for empty input. -/
def emptyMarker : List Char := "Ответ модели оказался пустым.".data

/-- Sentinel returned by `MessengerAPI.clean_text` when the text becomes
empty after truncation and trimming. -/
def emptyAfterMarker : List Char := "Ответ модели оказался пустым после очистки.".data

/-- `MessengerAPI.clean_text` (src/api_handler.py lines 297-319). -/
def clean_text (text : List Char) : List Char :=
  if text = [] then emptyMarker
  else if pyStrip (cutPass text) = [] then emptyAfterMarker
  else pyStrip (cutPass text)

end MessengerAPI

namespace APIManager

/-- The single sentinel of `APIManager._clean_text`: used both for empty
input and for text that becomes empty after cleaning
(src/core/api_manager.py lines 137-143). -/
def emptyMarkerAM : List Char := "Ответ пустой".data

/-- `APIManager._clean_text` (src/core/api_manager.py lines 135-143).
Same truncation/trim pipeline as `MessengerAPI.clean_text`, but one shared
sentinel for both empty cases. -/
def clean_text (text : List Char) : List Char :=
  if text = [] then emptyMarkerAM
  else if pyStrip (MessengerAPI.cutPass text) = [] then emptyMarkerAM
  else pyStrip (MessengerAPI.cutPass text)

end APIManager

namespace MessengerAPI

/-- One step of the truncation loop. -/
def cutStep (t tag : List Char) : List Char :=
  if containsSub tag t then cutBefore tag t else t

end MessengerAPI

/-! ### Python `str.format` with keyword arguments

`pyFormat subs tpl` models `tpl.format(**subs)` for templates made of
literal text, `\x7b\x7bescaped\x7d\x7d` braces and plain named fields
`\x7bname\x7d` (the only template forms the repository uses; conversion
and format specifications are not modelled).  A field whose name is not
a key of `subs` yields `.error name`, modelling Python's `KeyError`;
an unmatched single brace yields `.error valueErrorMarker`, modelling
Python's `ValueError`.  The scan is a single left-to-right pass with an
accumulator holding the reversed characters of the field being read. -/

def valueErrorMarker : List Char := "ValueError".data

def formatScan (subs : List (List Char × List Char)) :
    Option (List Char) → List Char → Except (List Char) (List Char)
  | none, [] => .ok []
  | none, c :: rest =>
      if c = '{' then
        match rest with
        | [] => formatScan subs (some []) []
        | c2 :: rest2 =>
            if c2 = '{' then (formatScan subs none rest2).map (fun o => '{' :: o)
            else formatScan subs (some []) (c2 :: rest2)
      else if c = '}' then
        match rest with
        | [] => .error valueErrorMarker
        | c2 :: rest2 =>
            if c2 = '}' then (formatScan subs none rest2).map (fun o => '}' :: o)
            else .error valueErrorMarker
      else (formatScan subs none rest).map (fun o => c :: o)
  | some _, [] => .error valueErrorMarker
  | some acc, c :: rest =>
      if c = '}' then
        match alookup subs acc.reverse with
        | none => .error acc.reverse
        | some v => (formatScan subs none rest).map (fun o => v ++ o)
      else formatScan subs (some (c :: acc)) rest

/-- `tpl.format(**subs)`. -/
def pyFormat (subs : List (List Char × List Char)) (tpl : List Char) :
    Except (List Char) (List Char) :=
  formatScan subs none tpl

/-- The named fields of a template, in scan order (same scan as
`formatScan`, collecting names instead of substituting). -/
def fieldNames : Option (List Char) → List Char → List (List Char)
  | none, [] => []
  | none, c :: rest =>
      if c = '{' then
        match rest with
        | [] => fieldNames (some []) []
        | c2 :: rest2 =>
            if c2 = '{' then fieldNames none rest2
            else fieldNames (some []) (c2 :: rest2)
      else if c = '}' then
        match rest with
        | [] => []
        | c2 :: rest2 => if c2 = '}' then fieldNames none rest2 else []
      else fieldNames none rest
  | some _, [] => []
  | some acc, c :: rest =>
      if c = '}' then acc.reverse :: fieldNames none rest
      else fieldNames (some (c :: acc)) rest

def placeholders (tpl : List Char) : List (List Char) := fieldNames none tpl

/-! ### Data model (src/models/character.py, group.py, message.py,
src/config/settings.py) -/

inductive MsgType : Type
  | text : MsgType
  | photo : MsgType
deriving DecidableEq

inductive ChatType : Type
  | privateChat : ChatType
  | groupChat : ChatType
deriving DecidableEq

structure Photo where
  filename : List Char
deriving DecidableEq

structure Character where
  char_id : List Char
  name : List Char
  private_prompt : List Char
  group_prompt : List Char
  photos : List Photo
deriving DecidableEq

structure ChatGroup where
  group_id : List Char
  name : List Char
  members : List (List Char)
  group_context : List Char
deriving DecidableEq

structure Message where
  msg_id : List Char
  sender : List Char
  text : List Char
  timestamp : List Char
  msg_type : MsgType
  photo_path : List Char
deriving DecidableEq

/-- src/config/settings.py line 38. -/
def MAX_MESSAGES_IN_HISTORY : Nat := 100

/-- src/config/settings.py line 39. -/
def MAX_MESSAGES_FOR_API : Nat := 15

/-! ### ChatManager (src/core/chat_manager.py) -/

/-- The in-memory data owned by a `ChatManager` instance. -/
structure ChatManagerState where
  characters : List (List Char × Character)
  groups : List (List Char × ChatGroup)
  chats : List (List Char × List Message)

namespace ChatManager

/-- `self.characters.get(m, Character(m, m, '', '', [])).name`: display name
of a persona id, falling back to the raw id. -/
def char_display_name (st : ChatManagerState) (m : List Char) : List Char :=
  match alookup st.characters m with
  | some ch => ch.name
  | none => m

/-- Sender display name in the history block: `"Пользователь"` for the
user marker, otherwise the persona display name. -/
def sender_name (st : ChatManagerState) (sender : List Char) : List Char :=
  if sender = "user".data then "Пользователь".data else char_display_name st sender

/-- `self.chats.get(chat_id, [])[-MAX_MESSAGES_FOR_API:]`: the bounded
history window of `ChatManager.build_prompt` (line 179). -/
def history_window (st : ChatManagerState) (chat_id : List Char) : List Message :=
  pySliceLast MAX_MESSAGES_FOR_API ((alookup st.chats chat_id).getD [])

/-- The history-block accumulation loop of `ChatManager.build_prompt`
(lines 180-185): only text messages contribute a line. -/
def history_text (st : ChatManagerState) (msgs : List Message) : List Char :=
  msgs.foldl
    (fun acc msg =>
      match msg.msg_type with
      | MsgType.text => acc ++ sender_name st msg.sender ++ ": ".data ++ msg.text ++ "\n".data
      | MsgType.photo => acc)
    []

/-- `ChatManager.build_prompt` (src/core/chat_manager.py lines 164-187).
In a group chat the group template is passed through `str.format`, whose
`KeyError` (unknown placeholder) propagates to the caller: modelled as
`Except.error`. -/
def build_prompt (st : ChatManagerState) (chat_id : List Char) (character : Character)
    (is_group : Bool) : Except (List Char) (List Char) :=
  let system_prompt := if is_group then character.group_prompt else character.private_prompt
  let sysE : Except (List Char) (List Char) :=
    if is_group then
      match alookup st.groups chat_id with
      | some group =>
          pyFormat
            [("group_name".data, group.name),
             ("members".data, joinComma (group.members.map (char_display_name st)))]
            system_prompt
      | none => .ok system_prompt
    else .ok system_prompt
  sysE.map (fun sys =>
    sys ++ "\n\nИстория переписки:\n".data ++ history_text st (history_window st chat_id) ++
      "\nОтветь на последнее сообщение.".data)

/-- The per-message dict written by `ChatManager.save_chat_history`
(lines 119-130): the `photo_path` key is present only when truthy. -/
structure MsgRecord where
  msg_id : List Char
  sender : List Char
  text : List Char
  timestamp : List Char
  msg_type : MsgType
  photo_path : Option (List Char)
deriving DecidableEq

def serializeMsg (m : Message) : MsgRecord :=
  { msg_id := m.msg_id, sender := m.sender, text := m.text, timestamp := m.timestamp,
    msg_type := m.msg_type,
    photo_path := if m.photo_path = [] then none else some m.photo_path }

/-- The `chat_data` record written to `chats/<chat_id>.json`. -/
structure ChatData where
  chat_id : List Char
  chat_type : ChatType
  character_id : Option (List Char)
  messages : List MsgRecord
deriving DecidableEq

/-- `ChatManager.save_chat_history` (src/core/chat_manager.py lines 111-141),
modelled as the record it writes (`none` when the chat is unknown and the
method returns without writing).  Only the most recent
`MAX_MESSAGES_IN_HISTORY` messages are persisted. -/
def save_chat_history (st : ChatManagerState) (chat_id : List Char) : Option ChatData :=
  match alookup st.chats chat_id with
  | none => none
  | some msgs =>
      let isGroup := (alookup st.groups chat_id).isSome
      some
        { chat_id := chat_id,
          chat_type := if isGroup then ChatType.groupChat else ChatType.privateChat,
          character_id := if isGroup then none else some chat_id,
          messages := (pySliceLast MAX_MESSAGES_IN_HISTORY msgs).map serializeMsg }

end ChatManager

/-! ### MessengerApp turn orchestrator (src/messenger_app.py)

The GUI-free part of `MessengerApp`: its data dictionaries, prompt
construction, directive handling and the group/private response loop.
Environment effects are passed as oracles: `fs` for `os.path.exists`,
`api` for `self.api.send_message` (keyed by the responding persona id and
the prompt).  Wall-clock message ids and timestamps are abstracted by the
state field `now` (the claims below never depend on their values). -/

structure AppState where
  characters : List (List Char × Character)
  groups : List (List Char × ChatGroup)
  chats : List (List Char × List Message)
  current_chat_id : List Char
  typing_indicators : List (List Char × Bool)
  now : List Char
deriving DecidableEq

/-- Python dict assignment `d[k] = v`. -/
def setAssoc {α : Type} : List (List Char × α) → List Char → α → List (List Char × α)
  | [], k, v => [(k, v)]
  | (k1, v1) :: rest, k, v =>
      if k1 = k then (k1, v) :: rest else (k1, v1) :: setAssoc rest k v

/-- Apply `f` to the value stored under `k` (unchanged when `k` is absent). -/
def mapAssoc {α : Type} (f : α → α) : List (List Char × α) → List Char → List (List Char × α)
  | [], _ => []
  | (k1, v1) :: rest, k =>
      if k1 = k then (k1, f v1) :: rest else (k1, v1) :: mapAssoc f rest k

namespace MessengerApp

/-- `self.characters.get(sender, {}).get('name', sender)`. -/
def app_display_name (st : AppState) (sender : List Char) : List Char :=
  if sender = "user".data then "Пользователь".data
  else
    match alookup st.characters sender with
    | some ch => ch.name
    | none => sender

/-- One line of the history block of `MessengerApp.build_prompt`
(lines 1046-1052): text and photo messages both render. -/
def history_line (st : AppState) (msg : Message) : List Char :=
  match msg.msg_type with
  | MsgType.text => app_display_name st msg.sender ++ ": ".data ++ msg.text ++ "\n".data
  | MsgType.photo => app_display_name st msg.sender ++ ": [отправил(а) фото]\n".data

def history_text (st : AppState) (msgs : List Message) : List Char :=
  msgs.foldl (fun acc msg => acc ++ history_line st msg) []

/-- `MessengerApp.build_prompt` (src/messenger_app.py lines 1010-1062).
`chat_type` is the Python string argument; the group template's
`str.format` KeyError propagates as `Except.error`. -/
def build_prompt (st : AppState) (character : Character) (chat_type : List Char)
    (group_context : Option ChatGroup) : Except (List Char) (List Char) :=
  let sysE : Except (List Char) (List Char) :=
    if chat_type = "private".data then .ok character.private_prompt
    else
      match group_context with
      | some group =>
          pyFormat
            [("group_name".data, group.name),
             ("members".data, joinComma (group.members.map (fun m =>
               match alookup st.characters m with
               | some ch => ch.name
               | none => m)))]
            character.group_prompt
      | none => .ok character.group_prompt
  sysE.map (fun sys =>
    sys ++ "\n\nИстория переписки:\n".data ++
      history_text st (pySliceLast MAX_MESSAGES_FOR_API
        ((alookup st.chats st.current_chat_id).getD [])) ++
      "\n\nОтветь на последнее сообщение пользователя естественно и по характеру персонажа.".data)

/-- Append a message to the current chat.  In Python a missing chat key
would raise `KeyError`, which the response loop catches per member and the
member then contributes nothing; both outcomes leave the state unchanged,
so the missing-key case is modelled as a no-op. -/
def appendMessage (st : AppState) (msg : Message) : AppState :=
  { st with chats := mapAssoc (fun l => l ++ [msg]) st.chats st.current_chat_id }

def textMessage (st : AppState) (sender body : List Char) : Message :=
  { msg_id := "msg_".data ++ st.now, sender := sender, text := body,
    timestamp := st.now, msg_type := MsgType.text, photo_path := [] }

def photoMessage (st : AppState) (sender path : List Char) : Message :=
  { msg_id := "msg_".data ++ st.now, sender := sender, text := [],
    timestamp := st.now, msg_type := MsgType.photo, photo_path := path }

/-- Word characters of the regex `\w` (the repository's photo tokens are
ASCII identifiers). -/
def isWordChar (c : Char) : Bool := c.isAlphanum || c = '_'

/-- Try to match the regex `\[PHOTO:(\w+)\]` at the start of `s`,
returning the captured token. -/
def matchPhotoAt (s : List Char) : Option (List Char) :=
  if "[PHOTO:".data.isPrefixOf s then
    let rest := s.drop 7
    let tok := rest.takeWhile isWordChar
    if tok ≠ [] ∧ (rest.drop tok.length).head? = some ']' then some tok else none
  else none

/-- `re.search(r'\[PHOTO:(\w+)\]', response_text)`: the leftmost match. -/
def findPhotoToken : List Char → Option (List Char)
  | [] => none
  | c :: rest =>
      match matchPhotoAt (c :: rest) with
      | some tok => some tok
      | none => findPhotoToken rest

/-- `os.path.join(CHARACTERS_DIR, character['id'], 'photos', filename)`. -/
def photoAssetPath (char_id filename : List Char) : List Char :=
  "characters/".data ++ char_id ++ "/photos/".data ++ filename

/-- The filename-resolution loop of `MessengerApp.send_character_photo`
(lines 974-982): substring match of the token against stored filenames,
first match wins. -/
def resolvePhoto (char_id tok : List Char) : List Photo → Option (List Char)
  | [] => none
  | p :: rest =>
      if containsSub tok p.filename then some (photoAssetPath char_id p.filename)
      else resolvePhoto char_id tok rest

/-- `MessengerApp.send_character_photo` (src/messenger_app.py lines 961-1004):
appends one photo message when the token resolves to an existing file,
otherwise appends nothing. -/
def send_character_photo (st : AppState) (fs : List Char → Bool) (character : Character)
    (photo_filename sender_id : List Char) : AppState :=
  match resolvePhoto character.char_id photo_filename character.photos with
  | none => st
  | some path => if fs path then appendMessage st (photoMessage st sender_id path) else st

/-- `MessengerApp.process_character_response` (src/messenger_app.py lines
923-959): a reply carrying a `[PHOTO:...]` directive with a well-formed
token is routed to `send_character_photo` (and no text message is
appended); otherwise the reply is appended as a text message. -/
def process_character_response (st : AppState) (fs : List Char → Bool)
    (response_text : List Char) (character : Character) (sender_id : List Char) : AppState :=
  if containsSub "[PHOTO:".data response_text then
    match findPhotoToken response_text with
    | some tok => send_character_photo st fs character tok sender_id
    | none => appendMessage st (textMessage st sender_id response_text)
  else appendMessage st (textMessage st sender_id response_text)

/-- `self.typing_indicators[self.current_chat_id] = b`
(`show_typing_indicator` / `hide_typing_indicator`, lines 1066-1076). -/
def setTyping (st : AppState) (b : Bool) : AppState :=
  { st with typing_indicators := setAssoc st.typing_indicators st.current_chat_id b }

/-- The member loop of `MessengerApp.handle_group_response` (lines 898-921).
`build_prompt` runs outside the per-member `try`, so its KeyError aborts
the whole loop (`Except.error`); everything after it is caught per member. -/
def group_loop (fs : List Char → Bool) (api : List Char → List Char → List Char)
    (group : ChatGroup) : AppState → List (List Char) → Except (List Char) AppState
  | st, [] => .ok st
  | st, member_id :: rest =>
      match alookup st.characters member_id with
      | none => group_loop fs api group st rest
      | some character =>
          match build_prompt st character "group".data (some group) with
          | .error e => .error e
          | .ok prompt =>
              let response_text := api member_id prompt
              if containsSub "[IGNORE]".data response_text then group_loop fs api group st rest
              else group_loop fs api group
                (process_character_response st fs response_text character member_id) rest

/-- `MessengerApp.handle_group_response` (src/messenger_app.py lines 882-921). -/
def handle_group_response (st : AppState) (fs : List Char → Bool)
    (api : List Char → List Char → List Char) : Except (List Char) AppState :=
  match alookup st.groups st.current_chat_id with
  | none => .ok st
  | some group => group_loop fs api group st group.members

/-- `MessengerApp.handle_private_response` (src/messenger_app.py lines
846-880).  The private branch of `build_prompt` performs no substitution,
so the `.error` case is unreachable (kept to mirror the call). -/
def handle_private_response (st : AppState) (fs : List Char → Bool)
    (api : List Char → List Char → List Char) : AppState :=
  match alookup st.characters st.current_chat_id with
  | none => st
  | some character =>
      match build_prompt st character "private".data none with
      | .error _ => st
      | .ok prompt =>
          process_character_response st fs (api st.current_chat_id prompt) character
            st.current_chat_id

/-- `MessengerApp.get_character_response` (src/messenger_app.py lines
826-844): show the typing indicator, dispatch by chat type, hide the
indicator.  An uncaught error from the group loop kills the worker thread
before the indicator is hidden. -/
def get_character_response (st : AppState) (fs : List Char → Bool)
    (api : List Char → List Char → List Char) : Except (List Char) AppState :=
  let st1 := setTyping st true
  match
    (if (alookup st1.groups st1.current_chat_id).isSome then handle_group_response st1 fs api
     else .ok (handle_private_response st1 fs api)) with
  | .error e => .error e
  | .ok st2 => .ok (setTyping st2 false)

end MessengerApp

/-! ### Provider dispatch (src/api_handler.py, src/core/api_manager.py)

Network transports are abstracted by an oracle `net : NetRequest → Option
(List Char)`: `some raw` is a successful call returning usable content
(the transport then normalizes it), `none` folds together the transport
exceptions and response-shape failures that each Python `send_*` converts
into its own error string (whose exact exception text is abstracted).
Optional SDK imports are capability flags.  What the claims below measure
is the second component: the list of network requests actually issued. -/

/-- One entry of `providers.yml`: `{api, key, models}` read with
`dict.get` defaults. -/
structure ProviderData where
  api : Option (List Char)
  key : Option (List Char)
  models : List (List Char)
deriving DecidableEq

/-- A single outbound provider call with its four tunables. -/
structure NetRequest where
  transport : List Char
  url : List Char
  key : List Char
  model : List Char
  prompt : List Char
  temperature : Rat
  max_tokens : Int
deriving DecidableEq

/-- Availability of the optional SDK imports. -/
structure Caps where
  anthropic : Bool
  genai : Bool
  openai : Bool
deriving DecidableEq

namespace MessengerAPI

/-- `character_config.get('api_settings', {})` with per-field `get`
defaults (src/api_handler.py lines 52-56). -/
structure ApiSettings where
  provider : Option (List Char)
  model : Option (List Char)
  temperature : Option Rat
  max_tokens : Option Int
deriving DecidableEq

structure CharacterConfig where
  api_settings : Option ApiSettings
deriving DecidableEq

def defaultSettings : ApiSettings := ⟨none, none, none, none⟩

/-- The provider name `send_message` resolves (default `'claude'`). -/
def resolvedProvider (cc : CharacterConfig) : List Char :=
  ((cc.api_settings.getD defaultSettings).provider).getD "claude".data

/-- `MessengerAPI.send_claude` (lines 87-125): import and key checks
happen before any call. -/
def send_claude (caps : Caps) (net : NetRequest → Option (List Char))
    (prompt model api_key : List Char) (temperature : Rat) (max_tokens : Int) :
    List Char × List NetRequest :=
  if caps.anthropic = false then
    ("Ошибка: Библиотека \x27anthropic\x27 не установлена. Выполните: pip install anthropic".data, [])
  else if api_key = [] then ("Ошибка: API-ключ для Claude не указан.".data, [])
  else
    let req : NetRequest := ⟨"claude".data, [], api_key, model, prompt, temperature, max_tokens⟩
    match net req with
    | some raw => (clean_text raw, [req])
    | none => ("Ошибка: Claude вернул пустой ответ.".data, [req])

/-- `MessengerAPI.send_gemini` (lines 127-169). -/
def send_gemini (caps : Caps) (net : NetRequest → Option (List Char))
    (prompt model api_key : List Char) (temperature : Rat) (max_tokens : Int) :
    List Char × List NetRequest :=
  if caps.genai = false then
    ("Ошибка: Библиотека \x27google-generativeai\x27 не установлена. Выполните: pip install google-generativeai".data, [])
  else if api_key = [] then ("Ошибка: API-ключ для Gemini не указан.".data, [])
  else
    let req : NetRequest := ⟨"gemini".data, [], api_key, model, prompt, temperature, max_tokens⟩
    match net req with
    | some raw => (clean_text raw, [req])
    | none => ("Ошибка: Gemini вернул неожиданный формат ответа.".data, [req])

/-- `MessengerAPI.send_openrouter` (lines 171-211). -/
def send_openrouter (net : NetRequest → Option (List Char))
    (prompt model api_url api_key : List Char) (temperature : Rat) (max_tokens : Int) :
    List Char × List NetRequest :=
  let req : NetRequest := ⟨"openrouter".data, api_url, api_key, model, prompt, temperature, max_tokens⟩
  match net req with
  | some raw => (clean_text raw, [req])
  | none => ("Ошибка: неверный формат ответа от OpenRouter.".data, [req])

/-- `MessengerAPI.send_chutes` (lines 213-253). -/
def send_chutes (net : NetRequest → Option (List Char))
    (prompt model api_url api_key : List Char) (temperature : Rat) (max_tokens : Int) :
    List Char × List NetRequest :=
  let req : NetRequest := ⟨"chutes".data, api_url, api_key, model, prompt, temperature, max_tokens⟩
  match net req with
  | some raw => (clean_text raw, [req])
  | none => ("Ошибка API Chutes".data, [req])

/-- `MessengerAPI.send_deepseek` (lines 255-293): the model id is the
hard-coded `"deepseek-chat"`; no key check before the call. -/
def send_deepseek (caps : Caps) (net : NetRequest → Option (List Char))
    (prompt api_url api_key : List Char) (temperature : Rat) (max_tokens : Int) :
    List Char × List NetRequest :=
  if caps.openai = false then
    ("Ошибка: Библиотека \x27openai\x27 не установлена. Выполните: pip install openai".data, [])
  else
    let req : NetRequest :=
      ⟨"deepseek".data, api_url, api_key, "deepseek-chat".data, prompt, temperature, max_tokens⟩
    match net req with
    | some raw => (clean_text raw, [req])
    | none => ("Ошибка API DeepSeek".data, [req])

/-- `MessengerAPI.send_message` (src/api_handler.py lines 40-83): resolves
the persona's api settings, rejects providers absent from the loaded
configuration before any transport work, then dispatches by name. -/
def send_message (config : List (List Char × ProviderData)) (caps : Caps)
    (net : NetRequest → Option (List Char)) (prompt : List Char) (cc : CharacterConfig) :
    List Char × List NetRequest :=
  let s := cc.api_settings.getD defaultSettings
  let provider := s.provider.getD "claude".data
  let model := s.model.getD []
  let temperature := s.temperature.getD (0.7 : Rat)
  let max_tokens := s.max_tokens.getD 300
  match alookup config provider with
  | none =>
      ("Ошибка: Провайдер \x27".data ++ provider ++ "\x27 не найден в конфигурации.".data, [])
  | some pd =>
      let api_url := pd.api.getD []
      let api_key := pd.key.getD []
      if provider = "claude".data then send_claude caps net prompt model api_key temperature max_tokens
      else if provider = "gemini".data then send_gemini caps net prompt model api_key temperature max_tokens
      else if provider = "openrouter".data then send_openrouter net prompt model api_url api_key temperature max_tokens
      else if provider = "chutes".data then send_chutes net prompt model api_url api_key temperature max_tokens
      else if provider = "deepseek".data then send_deepseek caps net prompt api_url api_key temperature max_tokens
      else ("Ошибка: Провайдер \x27".data ++ provider ++ "\x27 не поддерживается.".data, [])

end MessengerAPI

namespace APIManager

/-- `APIManager._send_claude` (src/core/api_manager.py lines 66-79): no
key check — a missing configuration entry still reaches the SDK call. -/
def am_send_claude (caps : Caps) (net : NetRequest → Option (List Char))
    (prompt model api_key : List Char) (temperature : Rat) (max_tokens : Int) :
    List Char × List NetRequest :=
  if caps.anthropic = false then ("Ошибка Claude".data, [])
  else
    let req : NetRequest := ⟨"claude".data, [], api_key, model, prompt, temperature, max_tokens⟩
    match net req with
    | some raw => (clean_text raw, [req])
    | none => ("Ошибка Claude".data, [req])

/-- `APIManager._send_gemini` (lines 81-94). -/
def am_send_gemini (caps : Caps) (net : NetRequest → Option (List Char))
    (prompt model api_key : List Char) (temperature : Rat) (max_tokens : Int) :
    List Char × List NetRequest :=
  if caps.genai = false then ("Ошибка Gemini".data, [])
  else
    let req : NetRequest := ⟨"gemini".data, [], api_key, model, prompt, temperature, max_tokens⟩
    match net req with
    | some raw => (clean_text raw, [req])
    | none => ("Ошибка Gemini".data, [req])

/-- `APIManager._send_openai_compatible` (lines 96-116). -/
def am_send_openai_compatible (net : NetRequest → Option (List Char))
    (prompt model api_url api_key : List Char) (temperature : Rat) (max_tokens : Int) :
    List Char × List NetRequest :=
  let req : NetRequest := ⟨"openai-compatible".data, api_url, api_key, model, prompt, temperature, max_tokens⟩
  match net req with
  | some raw => (clean_text raw, [req])
  | none => ("Ошибка API".data, [req])

/-- `APIManager._send_deepseek` (lines 118-133). -/
def am_send_deepseek (caps : Caps) (net : NetRequest → Option (List Char))
    (prompt api_url api_key : List Char) (temperature : Rat) (max_tokens : Int) :
    List Char × List NetRequest :=
  if caps.openai = false then ("Ошибка DeepSeek".data, [])
  else
    let req : NetRequest :=
      ⟨"deepseek".data, api_url, api_key, "deepseek-chat".data, prompt, temperature, max_tokens⟩
    match net req with
    | some raw => (clean_text raw, [req])
    | none => ("Ошибка DeepSeek".data, [req])

/-- The name set routed to `_send_openai_compatible` (line 55). -/
def openai_compatible_providers : List (List Char) :=
  ["openrouter".data, "chutes".data, "featherless".data, "moonshot".data]

/-- Every provider name `APIManager.send_message` recognizes. -/
def supported_providers : List (List Char) :=
  "claude".data :: "gemini".data :: "deepseek".data :: openai_compatible_providers

/-- `APIManager.send_message` (src/core/api_manager.py lines 42-64):
branches on the *name* of the current provider; the configuration is only
consulted with `dict.get` defaults, so an unregistered but recognized name
still reaches its transport. -/
def send_message (config : List (List Char × ProviderData)) (caps : Caps)
    (net : NetRequest → Option (List Char)) (current_provider current_model : List Char)
    (prompt : List Char) (temperature : Rat) (max_tokens : Int) :
    List Char × List NetRequest :=
  if current_provider = [] ∨ current_model = [] then
    ("Ошибка: Провайдер или модель не выбраны".data, [])
  else
    let pd := (alookup config current_provider).getD ⟨none, none, []⟩
    let api_key := pd.key.getD []
    if current_provider = "claude".data then
      am_send_claude caps net prompt current_model api_key temperature max_tokens
    else if current_provider = "gemini".data then
      am_send_gemini caps net prompt current_model api_key temperature max_tokens
    else if current_provider ∈ openai_compatible_providers then
      am_send_openai_compatible net prompt current_model (pd.api.getD []) api_key temperature max_tokens
    else if current_provider = "deepseek".data then
      am_send_deepseek caps net prompt (pd.api.getD []) api_key temperature max_tokens
    else ("Провайдер ".data ++ current_provider ++ " не поддерживается".data, [])

end APIManager

/-! ### History-rendering helpers (C3, C4) -/

/-- Concatenation of the per-element renderings.  -/
def concatMap {α : Type} (f : α → List Char) : List α → List Char
  | [] => []
  | m :: rest => f m ++ concatMap f rest

/-- The line a message contributes in `ChatManager.build_prompt`
(nothing for a photo message). -/
def cmLine (st : ChatManagerState) (msg : Message) : List Char :=
  match msg.msg_type with
  | MsgType.text =>
      ChatManager.sender_name st msg.sender ++ ": ".data ++ msg.text ++ "\n".data
  | MsgType.photo => []

/-! ### Concrete instances used by the claim witnesses and counterexamples -/

/-- Concrete data for C1: a persona whose group template references the
unknown placeholder `other`. -/
def chC1 : Character :=
  ⟨"alice".data, "Алиса".data, [], "Привет, {other}!".data, []⟩

def grC1 : ChatGroup := ⟨"g".data, "G".data, ["alice".data], []⟩

def stC1 : ChatManagerState :=
  ⟨[("alice".data, chC1)], [("g".data, grC1)], [("g".data, [])]⟩

/-- Concrete data for C3: a private chat whose only message is a photo. -/
def chC3 : Character := ⟨"alice".data, "Алиса".data, "Ты Алиса.".data, [], []⟩

def photoMsgC3 : Message :=
  ⟨"m1".data, "alice".data, [], "t1".data, MsgType.photo, "p.png".data⟩

def stC3 : ChatManagerState :=
  ⟨[("alice".data, chC3)], [], [("alice".data, [photoMsgC3])]⟩

/-- Concrete data for the C3 witness: an app-side chat whose only message
is a photo. -/
def stC3app : AppState :=
  ⟨[("alice".data, chC3)], [], [("alice".data, [photoMsgC3])], "alice".data, [], "t".data⟩

/-- Concrete data for the C4 witness: a chat of 200 identical text
messages. -/
def msgC4 : Message :=
  ⟨"m".data, "user".data, "hi".data, "t".data, MsgType.text, []⟩

def stC4 : ChatManagerState :=
  ⟨[], [], [("a".data, List.replicate 200 msgC4)]⟩

def chC4 : Character := ⟨"a".data, "A".data, "P".data, [], []⟩

/-- Concrete data for the C7 witness. -/
def chC7 : Character := ⟨"alice".data, "Алиса".data, [], "Ты в группе.".data, []⟩

def grC7 : ChatGroup := ⟨"g".data, "G".data, ["alice".data], []⟩

def stC7 : AppState :=
  ⟨[("alice".data, chC7)], [("g".data, grC7)], [("g".data, [])], "g".data, [], "t".data⟩

/-- Concrete data for C8: a persona with the single photo
`smile_01.png` and an open chat. -/
def chC8 : Character :=
  ⟨"alice".data, "Алиса".data, [], [], [⟨"smile_01.png".data⟩]⟩

def stC8 : AppState :=
  ⟨[("alice".data, chC8)], [], [("alice".data, [])], "alice".data, [], "t".data⟩

/-! ### Concrete dispatch instances (C9) -/

def capsC9 : Caps := ⟨true, true, true⟩

def netC9 : NetRequest → Option (List Char) := fun _ => some "hi".data

def ccC9 : MessengerAPI.CharacterConfig :=
  ⟨some ⟨some "nope".data, some "m".data, none, none⟩⟩


/-! ### Infrastructure theorems -/

/-! ### Substring / trimming infrastructure -/

theorem containsSub_iff_occurs (pat : List Char) :
    ∀ s : List Char, containsSub pat s = true ↔ pat <:+: s := by
  intro s
  induction s with
  | nil => simp [containsSub, List.isPrefixOf_iff_prefix]
  | cons c rest ih =>
      simp [containsSub, List.isPrefixOf_iff_prefix, Bool.or_eq_true, ih,
        List.infix_cons_iff]

theorem cutBefore_prefix (pat : List Char) : ∀ s : List Char, cutBefore pat s <+: s := by
  intro s
  induction s with
  | nil => simp [cutBefore]
  | cons c rest ih =>
      by_cases h : pat.isPrefixOf (c :: rest)
      · simp [cutBefore, h]
      · simpa [cutBefore, h, List.cons_prefix_cons] using ih

theorem not_infix_cutBefore (pat : List Char) (hne : pat ≠ []) :
    ∀ s : List Char, ¬ pat <:+: cutBefore pat s := by
  intro s
  induction s with
  | nil =>
      intro h
      simp only [cutBefore] at h
      exact hne (List.eq_nil_of_infix_nil h)
  | cons c rest ih =>
      by_cases h : pat.isPrefixOf (c :: rest)
      · intro habs
        simp only [cutBefore, h, if_pos] at habs
        exact hne (List.eq_nil_of_infix_nil habs)
      · intro habs
        simp only [cutBefore, h, if_neg, Bool.false_eq_true, not_false_iff] at habs
        rcases List.infix_cons_iff.mp habs with hpre | hinf
        · have hcb : c :: cutBefore pat rest <+: c :: rest := by
            simpa [List.cons_prefix_cons] using cutBefore_prefix pat rest
          have : pat <+: c :: rest := hpre.trans hcb
          exact h (List.isPrefixOf_iff_prefix.mpr this)
        · exact ih hinf

theorem cutBefore_append_isPrefix (pat : List Char) (hne : pat ≠ []) :
    ∀ s : List Char, containsSub pat s = true → cutBefore pat s ++ pat <+: s := by
  intro s
  induction s with
  | nil =>
      intro h
      simp only [containsSub, List.isPrefixOf_iff_prefix] at h
      exact absurd (List.prefix_nil.mp (by exact_mod_cast h)) hne
  | cons c rest ih =>
      intro h
      by_cases hp : pat.isPrefixOf (c :: rest)
      · simpa [cutBefore, hp] using List.isPrefixOf_iff_prefix.mp hp
      · have hrest : containsSub pat rest = true := by
          simpa [containsSub, hp] using h
        simpa [cutBefore, hp, List.cons_prefix_cons] using ih hrest

theorem dropWhile_idem (p : Char → Bool) (l : List Char) :
    (l.dropWhile p).dropWhile p = l.dropWhile p := by
  induction l with
  | nil => simp
  | cons c rest ih =>
      by_cases h : p c
      · simp [List.dropWhile_cons, h, ih]
      · simp [List.dropWhile_cons, h]

theorem lstrip_suffix (s : List Char) : lstrip s <:+ s := List.dropWhile_suffix _

theorem rstrip_within (s : List Char) : rstrip s <+: s := by
  have h := List.dropWhile_suffix (l := s.reverse) Char.isWhitespace
  have := List.reverse_prefix.mpr h
  simpa [rstrip] using this

theorem pyStrip_within (s : List Char) : pyStrip s <:+: s :=
  ((rstrip_within (lstrip s)).isInfix).trans (lstrip_suffix s).isInfix

theorem lstrip_idem (s : List Char) : lstrip (lstrip s) = lstrip s :=
  dropWhile_idem _ s

theorem rstrip_idem (s : List Char) : rstrip (rstrip s) = rstrip s := by
  simp [rstrip, dropWhile_idem]

theorem lstrip_rstrip_of_fixed (t : List Char) (h : lstrip t = t) :
    lstrip (rstrip t) = rstrip t := by
  cases t with
  | nil => simp [rstrip, lstrip]
  | cons c rest =>
      have hc : Char.isWhitespace c = false := by
        by_contra hcc
        have hcc' : Char.isWhitespace c = true := by
          cases hh : Char.isWhitespace c
          · exact absurd hh hcc
          · rfl
        have : lstrip (c :: rest) = lstrip rest := by simp [lstrip, List.dropWhile_cons, hcc']
        have hlen : (lstrip rest).length ≤ rest.length := (List.dropWhile_suffix _).length_le
        rw [h] at this
        have hlen2 : (c :: rest).length ≤ rest.length := this ▸ hlen
        simp only [List.length_cons] at hlen2
        omega
      have hpre := rstrip_within (c :: rest)
      cases hr : rstrip (c :: rest) with
      | nil => simp [lstrip]
      | cons d rs =>
          rw [hr] at hpre
          have hd : d = c := (List.cons_prefix_cons.mp hpre).1
          subst hd
          simp [lstrip, List.dropWhile_cons, hc]

theorem pyStrip_idem (s : List Char) : pyStrip (pyStrip s) = pyStrip s := by
  have h1 : lstrip (rstrip (lstrip s)) = rstrip (lstrip s) :=
    lstrip_rstrip_of_fixed (lstrip s) (lstrip_idem s)
  simp [pyStrip, h1, rstrip_idem]

/-! ### Properties of the marker-truncation pass -/

namespace MessengerAPI

theorem cutPass_eq_foldl (text : List Char) :
    cutPass text = cut_tags.foldl cutStep text := rfl

theorem cutStep_shrinks (t tag : List Char) : cutStep t tag <+: t := by
  by_cases h : containsSub tag t
  · simpa [cutStep, h] using cutBefore_prefix tag t
  · simp [cutStep, h]

theorem foldl_cutStep_shrinks : ∀ (tags : List (List Char)) (t : List Char),
    tags.foldl cutStep t <+: t := by
  intro tags
  induction tags with
  | nil => intro t; simp
  | cons tag rest ih =>
      intro t
      exact (ih (cutStep t tag)).trans (cutStep_shrinks t tag)

theorem not_infix_cutStep_self (t tag : List Char) (hne : tag ≠ []) :
    ¬ tag <:+: cutStep t tag := by
  by_cases h : containsSub tag t
  · simpa [cutStep, h] using not_infix_cutBefore tag hne t
  · intro habs
    simp only [cutStep, h, Bool.false_eq_true, if_neg, not_false_iff] at habs
    exact h ((containsSub_iff_occurs tag t).mpr habs)

theorem not_infix_of_prefix {tag t u : List Char} (hpre : u <+: t) (h : ¬ tag <:+: t) :
    ¬ tag <:+: u := fun habs => h (habs.trans hpre.isInfix)

theorem not_infix_foldl_cutStep :
    ∀ (tags : List (List Char)) (t tag : List Char), tag ∈ tags → tag ≠ [] →
      ¬ tag <:+: tags.foldl cutStep t := by
  intro tags
  induction tags with
  | nil => intro t tag hmem; exact absurd hmem (List.not_mem_nil tag)
  | cons tag2 rest ih =>
      intro t tag hmem hne
      rcases List.mem_cons.mp hmem with heq | hmem2
      · subst heq
        simp only [List.foldl_cons]
        exact not_infix_of_prefix (foldl_cutStep_shrinks rest (cutStep t tag))
          (not_infix_cutStep_self t tag hne)
      · simpa using ih (cutStep t tag2) tag hmem2 hne

theorem cut_tags_ne_nil : ∀ tag ∈ cut_tags, tag ≠ [] := by decide

theorem not_infix_cutPass (t tag : List Char) (hmem : tag ∈ cut_tags) :
    ¬ tag <:+: cutPass t :=
  not_infix_foldl_cutStep cut_tags t tag hmem (cut_tags_ne_nil tag hmem)

theorem cutPass_prefix (t : List Char) : cutPass t <+: t :=
  foldl_cutStep_shrinks cut_tags t

theorem cutStep_of_not_infix {t tag : List Char} (h : ¬ tag <:+: t) :
    cutStep t tag = t := by
  have hc : containsSub tag t = false := by
    cases hh : containsSub tag t
    · rfl
    · exact absurd ((containsSub_iff_occurs tag t).mp hh) h
  simp [cutStep, hc]

theorem cutPass_of_no_tags {t : List Char}
    (h : ∀ tag ∈ cut_tags, ¬ tag <:+: t) : cutPass t = t := by
  rw [cutPass_eq_foldl]
  have : ∀ (tags : List (List Char)), (∀ tag ∈ tags, ¬ tag <:+: t) →
      tags.foldl cutStep t = t := by
    intro tags
    induction tags with
    | nil => intro _; rfl
    | cons tag rest ih =>
        intro hall
        have h1 : cutStep t tag = t := cutStep_of_not_infix (hall tag (by simp))
        simp only [List.foldl_cons, h1]
        exact ih (fun tg hm => hall tg (by simp [hm]))
  exact this cut_tags h

end MessengerAPI

namespace MessengerAPI

theorem emptyMarker_tag_free : ∀ tag ∈ cut_tags, ¬ tag <:+: emptyMarker := by decide

theorem emptyAfterMarker_tag_free : ∀ tag ∈ cut_tags, ¬ tag <:+: emptyAfterMarker := by
  decide

theorem clean_text_cases (t : List Char) :
    clean_text t = emptyMarker ∨ clean_text t = emptyAfterMarker ∨
      (clean_text t = pyStrip (cutPass t) ∧ pyStrip (cutPass t) ≠ []) := by
  by_cases h1 : t = []
  · left; simp [clean_text, h1]
  · by_cases h2 : pyStrip (cutPass t) = []
    · right; left; simp [clean_text, h1, h2]
    · right; right; exact ⟨by simp [clean_text, h1, h2], h2⟩

theorem no_tag_in_stripped_cutPass (t tag : List Char) (hmem : tag ∈ cut_tags) :
    ¬ tag <:+: pyStrip (cutPass t) := fun habs =>
  not_infix_cutPass t tag hmem (habs.trans (pyStrip_within (cutPass t)))

theorem clean_text_tag_free (t tag : List Char) (hmem : tag ∈ cut_tags) :
    ¬ tag <:+: clean_text t := by
  rcases clean_text_cases t with h | h | ⟨h, _⟩ <;> rw [h]
  · exact emptyMarker_tag_free tag hmem
  · exact emptyAfterMarker_tag_free tag hmem
  · exact no_tag_in_stripped_cutPass t tag hmem

theorem clean_text_of_clean {r : List Char} (hne : r ≠ [])
    (htags : ∀ tag ∈ cut_tags, ¬ tag <:+: r) (hstrip : pyStrip r = r) :
    clean_text r = r := by
  rw [clean_text, if_neg hne, cutPass_of_no_tags htags, hstrip, if_neg hne]

theorem clean_text_idem_one (t : List Char) : clean_text (clean_text t) = clean_text t := by
  rcases clean_text_cases t with h | h | ⟨h, hne⟩ <;> rw [h]
  · decide
  · decide
  · exact clean_text_of_clean hne (fun tag hm => no_tag_in_stripped_cutPass t tag hm)
      (pyStrip_idem (cutPass t))

end MessengerAPI

namespace APIManager

theorem emptyMarkerAM_tag_free :
    ∀ tag ∈ MessengerAPI.cut_tags, ¬ tag <:+: emptyMarkerAM := by decide

theorem clean_text_casesAM (t : List Char) :
    clean_text t = emptyMarkerAM ∨
      (clean_text t = pyStrip (MessengerAPI.cutPass t) ∧
        pyStrip (MessengerAPI.cutPass t) ≠ []) := by
  by_cases h1 : t = []
  · left; simp [clean_text, h1]
  · by_cases h2 : pyStrip (MessengerAPI.cutPass t) = []
    · left; simp [clean_text, h1, h2]
    · right; exact ⟨by simp [clean_text, h1, h2], h2⟩

theorem clean_text_tag_freeAM (t tag : List Char) (hmem : tag ∈ MessengerAPI.cut_tags) :
    ¬ tag <:+: clean_text t := by
  rcases clean_text_casesAM t with h | ⟨h, _⟩ <;> rw [h]
  · exact emptyMarkerAM_tag_free tag hmem
  · exact MessengerAPI.no_tag_in_stripped_cutPass t tag hmem

theorem clean_text_of_cleanAM {r : List Char} (hne : r ≠ [])
    (htags : ∀ tag ∈ MessengerAPI.cut_tags, ¬ tag <:+: r) (hstrip : pyStrip r = r) :
    clean_text r = r := by
  rw [clean_text, if_neg hne, MessengerAPI.cutPass_of_no_tags htags, hstrip, if_neg hne]

theorem clean_text_idem_oneAM (t : List Char) : clean_text (clean_text t) = clean_text t := by
  rcases clean_text_casesAM t with h | ⟨h, hne⟩ <;> rw [h]
  · decide
  · exact clean_text_of_cleanAM hne
      (fun tag hm => MessengerAPI.no_tag_in_stripped_cutPass t tag hm)
      (pyStrip_idem (MessengerAPI.cutPass t))

end APIManager

/-- A template field whose name has no substitution makes the whole format
call fail (Python `str.format` raises `KeyError`). -/
theorem fieldNames_missing_error (subs : List (List Char × List Char)) :
    ∀ (n : Nat) (mode : Option (List Char)) (tpl : List Char), tpl.length ≤ n →
      ∀ nm, nm ∈ fieldNames mode tpl → alookup subs nm = none →
        ∃ e, formatScan subs mode tpl = Except.error e := by
  intro n
  induction n with
  | zero =>
      intro mode tpl hlen nm hmem _
      have htpl : tpl = [] := List.length_eq_zero.mp (Nat.le_zero.mp hlen)
      subst htpl
      cases mode with
      | none => simp [fieldNames] at hmem
      | some acc => simp [fieldNames] at hmem
  | succ k ih =>
      intro mode tpl hlen nm hmem hnone
      cases tpl with
      | nil =>
          cases mode with
          | none => simp [fieldNames] at hmem
          | some acc => simp [fieldNames] at hmem
      | cons c rest =>
          have hrl : rest.length ≤ k := by
            simp only [List.length_cons] at hlen
            omega
          cases mode with
          | some acc =>
              by_cases hc : c = '}'
              · subst hc
                simp only [fieldNames, if_true, ite_true, List.mem_cons] at hmem
                rcases hmem with heq | hmem2
                · subst heq
                  exact ⟨acc.reverse, by simp [formatScan, hnone]⟩
                · rcases hl : alookup subs acc.reverse with _ | v
                  · exact ⟨acc.reverse, by simp [formatScan, hl]⟩
                  · rcases ih none rest hrl nm hmem2 hnone with ⟨e, he⟩
                    exact ⟨e, by simp [formatScan, hl, he, Except.map]⟩
              · simp only [fieldNames, hc, ite_false, if_neg hc] at hmem
                rcases ih (some (c :: acc)) rest hrl nm hmem hnone with ⟨e, he⟩
                exact ⟨e, by simp [formatScan, hc, he]⟩
          | none =>
              by_cases hc : c = '{'
              · subst hc
                cases rest with
                | nil => simp [fieldNames] at hmem
                | cons c2 rest2 =>
                    have hrl2 : rest2.length ≤ k := by
                      simp only [List.length_cons] at hlen
                      omega
                    by_cases hc2 : c2 = '{'
                    · subst hc2
                      simp only [fieldNames, ite_true] at hmem
                      rcases ih none rest2 hrl2 nm hmem hnone with ⟨e, he⟩
                      exact ⟨e, by simp [formatScan, he, Except.map]⟩
                    · simp only [fieldNames, ite_true, hc2, ite_false, if_neg hc2] at hmem
                      rcases ih (some []) (c2 :: rest2) hrl nm hmem hnone with ⟨e, he⟩
                      refine ⟨e, ?_⟩
                      rw [← he]
                      simp [formatScan, hc2]
              · by_cases hc3 : c = '}'
                · subst hc3
                  cases rest with
                  | nil => simp [fieldNames, hc] at hmem
                  | cons c2 rest2 =>
                      have hrl2 : rest2.length ≤ k := by
                        simp only [List.length_cons] at hlen
                        omega
                      by_cases hc2 : c2 = '}'
                      · subst hc2
                        simp only [fieldNames, hc, ite_false, ite_true, if_neg hc] at hmem
                        rcases ih none rest2 hrl2 nm hmem hnone with ⟨e, he⟩
                        exact ⟨e, by simp [formatScan, hc, he, Except.map]⟩
                      · simp [fieldNames, hc2] at hmem
                · rw [fieldNames.eq_def] at hmem
                  simp only [if_neg hc, if_neg hc3] at hmem
                  rcases ih none rest hrl nm hmem hnone with ⟨e, he⟩
                  refine ⟨e, ?_⟩
                  rw [formatScan.eq_def]
                  simp only [if_neg hc, if_neg hc3, he, Except.map]

/-- Specialization to `pyFormat`. -/
theorem pyFormat_missing_error (subs : List (List Char × List Char)) (tpl nm : List Char)
    (hmem : nm ∈ placeholders tpl) (hnone : alookup subs nm = none) :
    ∃ e, pyFormat subs tpl = Except.error e :=
  fieldNames_missing_error subs tpl.length none tpl le_rfl nm hmem hnone

theorem cm_history_foldl (st : ChatManagerState) :
    ∀ (msgs : List Message) (acc : List Char),
      msgs.foldl
        (fun acc msg =>
          match msg.msg_type with
          | MsgType.text =>
              acc ++ ChatManager.sender_name st msg.sender ++ ": ".data ++ msg.text ++ "\n".data
          | MsgType.photo => acc)
        acc = acc ++ concatMap (cmLine st) msgs := by
  intro msgs
  induction msgs with
  | nil => intro acc; simp [concatMap]
  | cons m rest ih =>
      intro acc
      rw [List.foldl_cons, ih]
      cases h : m.msg_type with
      | text => simp [concatMap, cmLine, h, List.append_assoc]
      | photo => simp [concatMap, cmLine, h]

theorem cm_history_text_eq (st : ChatManagerState) (msgs : List Message) :
    ChatManager.history_text st msgs = concatMap (cmLine st) msgs := by
  have h := cm_history_foldl st msgs []
  rw [List.nil_append] at h
  exact h

theorem app_history_foldl (st : AppState) :
    ∀ (msgs : List Message) (acc : List Char),
      msgs.foldl (fun acc msg => acc ++ MessengerApp.history_line st msg) acc =
        acc ++ concatMap (MessengerApp.history_line st) msgs := by
  intro msgs
  induction msgs with
  | nil => intro acc; simp [concatMap]
  | cons m rest ih => intro acc; simp [List.foldl_cons, ih, concatMap, List.append_assoc]

theorem app_history_text_eq (st : AppState) (msgs : List Message) :
    MessengerApp.history_text st msgs = concatMap (MessengerApp.history_line st) msgs := by
  have h := app_history_foldl st msgs []
  rw [List.nil_append] at h
  exact h

/-- Photo messages contribute nothing to the ChatManager history block. -/
theorem concatMap_cmLine_filter (st : ChatManagerState) :
    ∀ msgs : List Message,
      concatMap (cmLine st) msgs =
        concatMap (cmLine st) (msgs.filter (fun m => m.msg_type == MsgType.text)) := by
  intro msgs
  induction msgs with
  | nil => rfl
  | cons m rest ih =>
      cases h : m.msg_type with
      | text => simp [concatMap, List.filter_cons, h, ih, cmLine]
      | photo => simp [concatMap, List.filter_cons, h, ih, cmLine]

/-- An element's rendering occurs inside the concatenated rendering. -/
theorem concatMap_infix_of_mem {α : Type} (f : α → List Char) :
    ∀ (msgs : List α) (m : α), m ∈ msgs → f m <:+: concatMap f msgs := by
  intro msgs
  induction msgs with
  | nil => intro m hm; exact absurd hm (List.not_mem_nil m)
  | cons x rest ih =>
      intro m hm
      rcases List.mem_cons.mp hm with heq | hm2
      · subst heq
        exact (List.prefix_append (f m) (concatMap f rest)).isInfix
      · exact ((ih m hm2).trans (List.suffix_append (f x) (concatMap f rest)).isInfix)

theorem pySliceLast_of_length {α : Type} (n : Nat) (l : List α) :
    pySliceLast n l = l.drop (l.length - n) := rfl

/-! ### Group-turn lemmas (C7) -/

theorem alookup_setAssoc {α : Type} :
    ∀ (l : List (List Char × α)) (k : List Char) (v : α),
      alookup (setAssoc l k v) k = some v := by
  intro l
  induction l with
  | nil => intro k v; simp [setAssoc, alookup]
  | cons p rest ih =>
      intro k v
      by_cases h : p.1 = k
      · simp [setAssoc, h, alookup]
      · simp [setAssoc, h, alookup, ih]

/-- When every member's response carries the ignore marker (and each
build succeeds), the member loop returns the state unchanged. -/
theorem group_loop_all_ignored (fs : List Char → Bool)
    (api : List Char → List Char → List Char) (group : ChatGroup) (st : AppState)
    (hignore : ∀ mid prompt, containsSub "[IGNORE]".data (api mid prompt) = true) :
    ∀ members : List (List Char),
      (∀ mid character, mid ∈ members → alookup st.characters mid = some character →
        ∃ p, MessengerApp.build_prompt st character "group".data (some group) =
          Except.ok p) →
      MessengerApp.group_loop fs api group st members = Except.ok st := by
  intro members
  induction members with
  | nil => intro _; rfl
  | cons mid rest ih =>
      intro hbuild
      rcases hch : alookup st.characters mid with _ | character
      · simp [MessengerApp.group_loop, hch]
        exact ih (fun m c hm hc => hbuild m c (by simp [hm]) hc)
      · rcases hbuild mid character (by simp) hch with ⟨p, hp⟩
        simp [MessengerApp.group_loop, hch, hp, hignore mid p]
        exact ih (fun m c hm hc => hbuild m c (by simp [hm]) hc)

/-- C7: in a group turn where every member's normalized reply contains the
ignore directive (and every member's prompt builds), no message is
appended and the turn completes with the typing indicator cleared. -/
theorem claim7_ignore_all (st : AppState) (fs : List Char → Bool)
    (api : List Char → List Char → List Char) (group : ChatGroup)
    (hg : alookup st.groups st.current_chat_id = some group)
    (hignore : ∀ mid prompt, containsSub "[IGNORE]".data (api mid prompt) = true)
    (hbuild : ∀ mid character, mid ∈ group.members →
      alookup (MessengerApp.setTyping st true).characters mid = some character →
      ∃ p, MessengerApp.build_prompt (MessengerApp.setTyping st true) character
        "group".data (some group) = Except.ok p) :
    ∃ st2, MessengerApp.get_character_response st fs api = Except.ok st2 ∧
      st2.chats = st.chats ∧
      alookup st2.typing_indicators st.current_chat_id = some false := by
  have hg1 : alookup (MessengerApp.setTyping st true).groups
      (MessengerApp.setTyping st true).current_chat_id = some group := hg
  have hloop := group_loop_all_ignored fs api group (MessengerApp.setTyping st true)
    hignore group.members hbuild
  refine ⟨MessengerApp.setTyping (MessengerApp.setTyping st true) false, ?_, rfl, ?_⟩
  · simp [MessengerApp.get_character_response, hg1,
      MessengerApp.handle_group_response, hloop]
  · exact alookup_setAssoc _ _ _

/-! ### Photo-directive lemmas (C8) -/

theorem alookup_mapAssoc {α : Type} (f : α → α) :
    ∀ (l : List (List Char × α)) (k : List Char) (v : α),
      alookup l k = some v → alookup (mapAssoc f l k) k = some (f v) := by
  intro l
  induction l with
  | nil => intro k v h; simp [alookup] at h
  | cons p rest ih =>
      rcases p with ⟨k1, v1⟩
      intro k v h
      by_cases hk : k1 = k
      · simp only [alookup, if_pos hk] at h
        injection h with h2
        subst h2
        simp [mapAssoc, hk, alookup]
      · simp only [alookup, if_neg hk] at h
        simp [mapAssoc, hk, alookup, ih k v h]

/-- A reply in which the photo regex matches contains `"[PHOTO:"`. -/
theorem findPhotoToken_contains (tok : List Char) :
    ∀ s : List Char, MessengerApp.findPhotoToken s = some tok →
      containsSub "[PHOTO:".data s = true := by
  intro s
  induction s with
  | nil => intro h; simp [MessengerApp.findPhotoToken] at h
  | cons c rest ih =>
      intro h
      rcases hm : MessengerApp.matchPhotoAt (c :: rest) with _ | t
      · simp only [MessengerApp.findPhotoToken, hm] at h
        simp [containsSub, ih h]
      · have hpre : "[PHOTO:".data.isPrefixOf (c :: rest) = true := by
          by_contra hp
          have hp2 : "[PHOTO:".data.isPrefixOf (c :: rest) = false := by
            cases hh : "[PHOTO:".data.isPrefixOf (c :: rest)
            · rfl
            · exact absurd hh hp
          simp [MessengerApp.matchPhotoAt, hp2] at hm
        simp [containsSub, hpre]


/-! ### Claim theorems -/

/-- C2, counterexample: `APIManager._clean_text` returns the *same*
sentinel `"Ответ пустой"` both for the empty input and for the
whitespace-only input `"   "`, so the two cases are not mapped to
distinct markers by this normalizer. -/
theorem claim2_counterexample :
    APIManager.clean_text "".data = "Ответ пустой".data ∧
    APIManager.clean_text "   ".data = "Ответ пустой".data :=
  ⟨by decide, by decide⟩

/-- C2 (amended): `MessengerAPI.clean_text` maps the empty input to the
empty-response marker and any non-empty input that becomes empty after
marker truncation and trimming to the distinct empty-after-cleaning
marker; `APIManager._clean_text` instead returns its single shared
sentinel in both cases. -/
theorem claim2_markers :
    MessengerAPI.clean_text [] = MessengerAPI.emptyMarker ∧
    (∀ s, s ≠ [] → pyStrip (MessengerAPI.cutPass s) = [] →
        MessengerAPI.clean_text s = MessengerAPI.emptyAfterMarker) ∧
    MessengerAPI.emptyMarker ≠ MessengerAPI.emptyAfterMarker ∧
    APIManager.clean_text [] = APIManager.emptyMarkerAM ∧
    (∀ s, s ≠ [] → pyStrip (MessengerAPI.cutPass s) = [] →
        APIManager.clean_text s = APIManager.emptyMarkerAM) := by
  refine ⟨rfl, ?_, by decide, rfl, ?_⟩
  · intro s h1 h2
    simp [MessengerAPI.clean_text, h1, h2]
  · intro s h1 h2
    simp [APIManager.clean_text, h1, h2]

/-- C2, witness: the whitespace-only input `"   "` hits the
empty-after-cleaning branch of `MessengerAPI.clean_text`. -/
theorem claim2_witness :
    ("   ".data ≠ ([] : List Char)) ∧ pyStrip (MessengerAPI.cutPass "   ".data) = [] ∧
    MessengerAPI.clean_text "   ".data = MessengerAPI.emptyAfterMarker :=
  ⟨by decide, by decide, claim2_markers.2.1 "   ".data (by decide) (by decide)⟩

/-- C5: both normalizers map `"Hello###world"` to `"Hello"`; the marker
pass is the sequential left fold over the marker list, and each single
truncation cuts exactly at the first occurrence of its marker (the kept
part is marker-free and the marker follows it immediately). -/
theorem claim5_truncation :
    MessengerAPI.clean_text "Hello###world".data = "Hello".data ∧
    APIManager.clean_text "Hello###world".data = "Hello".data ∧
    (∀ t, MessengerAPI.cutPass t = MessengerAPI.cut_tags.foldl MessengerAPI.cutStep t) ∧
    (∀ tag t, tag ≠ [] → containsSub tag t = true →
        cutBefore tag t ++ tag <+: t ∧ ¬ tag <:+: cutBefore tag t) := by
  refine ⟨by decide, by decide, fun t => rfl, fun tag t hne hc => ?_⟩
  exact ⟨cutBefore_append_isPrefix tag hne t hc, not_infix_cutBefore tag hne t⟩

/-- C5, witness: the characterization of a single truncation evaluated at
marker `"###"` on `"Hello###world"`. -/
theorem claim5_witness :
    ("###".data ≠ ([] : List Char)) ∧
    containsSub "###".data "Hello###world".data = true ∧
    (cutBefore "###".data "Hello###world".data ++ "###".data <+: "Hello###world".data ∧
      ¬ "###".data <:+: cutBefore "###".data "Hello###world".data) :=
  ⟨by decide, by decide,
    claim5_truncation.2.2.2 "###".data "Hello###world".data (by decide) (by decide)⟩

/-- C6: both normalizers are idempotent on every input, including the
inputs that reduce to one of the sentinel markers. -/
theorem claim6_idempotent (t : List Char) :
    MessengerAPI.clean_text (MessengerAPI.clean_text t) = MessengerAPI.clean_text t ∧
    APIManager.clean_text (APIManager.clean_text t) = APIManager.clean_text t :=
  ⟨MessengerAPI.clean_text_idem_one t, APIManager.clean_text_idem_oneAM t⟩

/-- C10: no cut marker survives in (or is reintroduced into) the output
of either normalizer, for every input. -/
theorem claim10_no_markers (t tag : List Char) (hmem : tag ∈ MessengerAPI.cut_tags) :
    ¬ tag <:+: MessengerAPI.clean_text t ∧ ¬ tag <:+: APIManager.clean_text t :=
  ⟨MessengerAPI.clean_text_tag_free t tag hmem, APIManager.clean_text_tag_freeAM t tag hmem⟩

/-- C10, witness: the marker `"###"` does not occur in the normalized
form of `"a###b"`. -/
theorem claim10_witness :
    "###".data ∈ MessengerAPI.cut_tags ∧
    (¬ "###".data <:+: MessengerAPI.clean_text "a###b".data ∧
      ¬ "###".data <:+: APIManager.clean_text "a###b".data) :=
  ⟨by decide, claim10_no_markers "a###b".data "###".data (by decide)⟩

/-- C1, counterexample: with a group template referencing the placeholder
`other`, `ChatManager.build_prompt` does not fall back to the
unsubstituted template — the `str.format` KeyError escapes (modelled as
`Except.error "other"`), so the claim's report-and-fall-back behavior does
not hold. -/
theorem claim1_counterexample :
    ChatManager.build_prompt stC1 "g".data chC1 true = Except.error "other".data := rfl

/-- C1 (amended): whenever a persona's group template references a
placeholder other than `group_name`/`members`, the `str.format` call
inside `build_prompt` raises (KeyError), the error propagates to the
caller unhandled, and no fallback to the unsubstituted template occurs —
in both `ChatManager.build_prompt` and `MessengerApp.build_prompt`. -/
theorem claim1_unknown_placeholder (st : ChatManagerState) (chat_id : List Char)
    (character : Character) (group : ChatGroup) (nm : List Char)
    (hg : alookup st.groups chat_id = some group)
    (hmem : nm ∈ placeholders character.group_prompt)
    (h1 : nm ≠ "group_name".data) (h2 : nm ≠ "members".data) :
    (∃ e, ChatManager.build_prompt st chat_id character true = Except.error e) ∧
    (∀ ast : AppState,
      ∃ e, MessengerApp.build_prompt ast character "group".data (some group) =
        Except.error e) := by
  have e1 : "group_name".data ≠ nm := fun h => h1 h.symm
  have e2 : "members".data ≠ nm := fun h => h2 h.symm
  constructor
  · have hsub : alookup
        [("group_name".data, group.name),
         ("members".data, joinComma (group.members.map (ChatManager.char_display_name st)))]
        nm = none := by simp [alookup, e1, e2]
    rcases pyFormat_missing_error _ character.group_prompt nm hmem hsub with ⟨e, he⟩
    exact ⟨e, by simp [ChatManager.build_prompt, hg, he, Except.map]⟩
  · intro ast
    have hsub : alookup
        [("group_name".data, group.name),
         ("members".data, joinComma (group.members.map (fun m =>
           match alookup ast.characters m with
           | some ch => ch.name
           | none => m)))] nm = none := by simp [alookup, e1, e2]
    rcases pyFormat_missing_error _ character.group_prompt nm hmem hsub with ⟨e, he⟩
    refine ⟨e, ?_⟩
    have hne : ("group".data = "private".data) = False := by decide
    simp [MessengerApp.build_prompt, hne, he, Except.map]

/-- C1, witness: the amended theorem applied to the concrete group chat of
the counterexample. -/
theorem claim1_witness :
    alookup stC1.groups "g".data = some grC1 ∧
    "other".data ∈ placeholders chC1.group_prompt ∧
    ("other".data ≠ "group_name".data) ∧ ("other".data ≠ "members".data) ∧
    (∃ e, ChatManager.build_prompt stC1 "g".data chC1 true = Except.error e) :=
  ⟨rfl, by decide, by decide, by decide,
    (claim1_unknown_placeholder stC1 "g".data chC1 grC1 "other".data rfl (by decide)
      (by decide) (by decide)).1⟩

/-- C3, counterexample: in `ChatManager.build_prompt` a photo message in
the window is silently omitted — its history block is empty, with no
`"[sent a photo]"`-style line. -/
theorem claim3_counterexample :
    ChatManager.history_text stC3 [photoMsgC3] = [] ∧
    ChatManager.build_prompt stC3 "alice".data chC3 false =
      Except.ok ("Ты Алиса.".data ++ "\n\nИстория переписки:\n".data ++
        "\nОтветь на последнее сообщение.".data) :=
  ⟨rfl, rfl⟩

/-- C3 (amended): `MessengerApp.build_prompt` renders a photo message in
the bounded window as `"<DisplayName>: [отправил(а) фото]"` (the line
occurs in the produced prompt), while `ChatManager.build_prompt` renders
only text messages — its history block equals that of the text-filtered
history, silently omitting photo messages. -/
theorem claim3_photo_rendering :
    (∀ (st : ChatManagerState) (msgs : List Message),
      ChatManager.history_text st msgs =
        ChatManager.history_text st (msgs.filter (fun m => m.msg_type == MsgType.text))) ∧
    (∀ (ast : AppState) (character : Character) (msgs : List Message) (m : Message),
      alookup ast.chats ast.current_chat_id = some msgs →
      m ∈ pySliceLast MAX_MESSAGES_FOR_API msgs →
      m.msg_type = MsgType.photo →
      ∃ p, MessengerApp.build_prompt ast character "private".data none = Except.ok p ∧
        (MessengerApp.app_display_name ast m.sender ++ ": [отправил(а) фото]\n".data)
          <:+: p) := by
  constructor
  · intro st msgs
    rw [cm_history_text_eq, cm_history_text_eq, concatMap_cmLine_filter]
  · intro ast character msgs m hchat hm hphoto
    refine ⟨character.private_prompt ++ "\n\nИстория переписки:\n".data ++
      MessengerApp.history_text ast (pySliceLast MAX_MESSAGES_FOR_API msgs) ++
      "\n\nОтветь на последнее сообщение пользователя естественно и по характеру персонажа.".data,
      ?_, ?_⟩
    · simp [MessengerApp.build_prompt, hchat, Except.map]
    · have hline : MessengerApp.history_line ast m =
          MessengerApp.app_display_name ast m.sender ++ ": [отправил(а) фото]\n".data := by
        simp [MessengerApp.history_line, hphoto]
      have h1 : MessengerApp.history_line ast m <:+:
          MessengerApp.history_text ast (pySliceLast MAX_MESSAGES_FOR_API msgs) := by
        rw [app_history_text_eq]
        exact concatMap_infix_of_mem _ _ m hm
      rw [← hline]
      exact h1.trans (List.infix_append _ _ _)

/-- C3, witness: the MessengerApp rendering statement applied to the
one-photo chat. -/
theorem claim3_witness :
    alookup stC3app.chats stC3app.current_chat_id = some [photoMsgC3] ∧
    photoMsgC3 ∈ pySliceLast MAX_MESSAGES_FOR_API [photoMsgC3] ∧
    photoMsgC3.msg_type = MsgType.photo ∧
    (∃ p, MessengerApp.build_prompt stC3app chC3 "private".data none = Except.ok p ∧
      (MessengerApp.app_display_name stC3app photoMsgC3.sender ++
        ": [отправил(а) фото]\n".data) <:+: p) :=
  ⟨rfl, by simp [pySliceLast, MAX_MESSAGES_FOR_API], rfl,
    claim3_photo_rendering.2 stC3app chC3 [photoMsgC3] photoMsgC3 rfl
      (by simp [pySliceLast, MAX_MESSAGES_FOR_API]) rfl⟩

/-- C4: for a chat holding 200 messages, the persisted record keeps
exactly the most recent 100 of them, and the prompt's history window (and
hence the history block of `build_prompt`) is exactly the most recent 15. -/
theorem claim4_history_windowing (st : ChatManagerState) (chat_id : List Char)
    (character : Character) (msgs : List Message)
    (hchat : alookup st.chats chat_id = some msgs) (hlen : msgs.length = 200) :
    (∃ d, ChatManager.save_chat_history st chat_id = some d ∧
      d.messages = (msgs.drop 100).map ChatManager.serializeMsg ∧
      d.messages.length = 100) ∧
    ChatManager.history_window st chat_id = msgs.drop 185 ∧
    (msgs.drop 185).length = 15 ∧
    ChatManager.build_prompt st chat_id character false =
      Except.ok (character.private_prompt ++ "\n\nИстория переписки:\n".data ++
        ChatManager.history_text st (msgs.drop 185) ++
        "\nОтветь на последнее сообщение.".data) := by
  have hslice : pySliceLast MAX_MESSAGES_IN_HISTORY msgs = msgs.drop 100 := by
    simp [pySliceLast, MAX_MESSAGES_IN_HISTORY, hlen]
  have hwin : ChatManager.history_window st chat_id = msgs.drop 185 := by
    simp [ChatManager.history_window, hchat, pySliceLast, MAX_MESSAGES_FOR_API, hlen]
  have hsave : ChatManager.save_chat_history st chat_id =
      some
        { chat_id := chat_id,
          chat_type :=
            if (alookup st.groups chat_id).isSome then ChatType.groupChat
            else ChatType.privateChat,
          character_id :=
            if (alookup st.groups chat_id).isSome then none else some chat_id,
          messages := (pySliceLast MAX_MESSAGES_IN_HISTORY msgs).map ChatManager.serializeMsg } := by
    simp [ChatManager.save_chat_history, hchat]
  refine ⟨⟨_, hsave, ?_, ?_⟩, hwin, ?_, ?_⟩
  · rw [hslice]
  · simp [hslice, List.length_drop, hlen]
  · simp [List.length_drop, hlen]
  · simp [ChatManager.build_prompt, hwin, Except.map]

/-- C4, witness: the windowing theorem applied to the 200-message chat. -/
theorem claim4_witness :
    alookup stC4.chats "a".data = some (List.replicate 200 msgC4) ∧
    (List.replicate 200 msgC4).length = 200 ∧
    ((∃ d, ChatManager.save_chat_history stC4 "a".data = some d ∧
      d.messages = ((List.replicate 200 msgC4).drop 100).map ChatManager.serializeMsg ∧
      d.messages.length = 100) ∧
    ChatManager.history_window stC4 "a".data = (List.replicate 200 msgC4).drop 185 ∧
    ((List.replicate 200 msgC4).drop 185).length = 15 ∧
    ChatManager.build_prompt stC4 "a".data chC4 false =
      Except.ok (chC4.private_prompt ++ "\n\nИстория переписки:\n".data ++
        ChatManager.history_text stC4 ((List.replicate 200 msgC4).drop 185) ++
        "\nОтветь на последнее сообщение.".data)) :=
  ⟨rfl, by simp,
    claim4_history_windowing stC4 "a".data chC4 (List.replicate 200 msgC4) rfl (by simp)⟩

/-- C7, witness: a one-member group whose reply is exactly `[IGNORE]`. -/
theorem claim7_witness :
    alookup stC7.groups stC7.current_chat_id = some grC7 ∧
    (∃ st2, MessengerApp.get_character_response stC7 (fun _ => false)
        (fun _ _ => "[IGNORE]".data) = Except.ok st2 ∧
      st2.chats = stC7.chats ∧
      alookup st2.typing_indicators stC7.current_chat_id = some false) := by
  refine ⟨rfl, claim7_ignore_all stC7 (fun _ => false) (fun _ _ => "[IGNORE]".data) grC7
    rfl (fun _ _ => rfl) ?_⟩
  intro mid character hm hc
  have hmid : mid = "alice".data := by simpa [grC7] using hm
  subst hmid
  have h2 : some chC7 = some character := by
    rw [← hc]
    rfl
  injection h2 with h3
  subst h3
  exact ⟨_, rfl⟩

/-- C8, counterexample: even though `[PHOTO:smile_01]` resolves against
the stored filename `smile_01.png`, no message is appended when the
resolved asset file does not exist on disk (`os.path.exists` is false) —
the claim's "exactly one photo-kind message" does not hold for every
environment. -/
theorem claim8_counterexample :
    MessengerApp.process_character_response stC8 (fun _ => false)
      "[PHOTO:smile_01]".data chC8 "alice".data = stC8 := rfl

/-- C8 (amended): with photo list `[smile_01.png]`, a reply whose photo
directive token is `smile_01` appends exactly one photo message
referencing the resolved asset, provided the asset file exists; a reply
whose token is `unknown` (matching no stored filename) appends nothing. -/
theorem claim8_photo_directive (st : AppState) (fs : List Char → Bool)
    (character : Character) (sender_id response : List Char) (msgs : List Message)
    (hph : character.photos = [⟨"smile_01.png".data⟩])
    (hchat : alookup st.chats st.current_chat_id = some msgs) :
    (MessengerApp.findPhotoToken response = some "smile_01".data →
      fs (MessengerApp.photoAssetPath character.char_id "smile_01.png".data) = true →
      alookup
        (MessengerApp.process_character_response st fs response character sender_id).chats
        st.current_chat_id =
        some (msgs ++ [MessengerApp.photoMessage st sender_id
          (MessengerApp.photoAssetPath character.char_id "smile_01.png".data)])) ∧
    (MessengerApp.findPhotoToken response = some "unknown".data →
      MessengerApp.process_character_response st fs response character sender_id = st) := by
  constructor
  · intro htok hfs
    have hcont := findPhotoToken_contains "smile_01".data response htok
    have hres : MessengerApp.resolvePhoto character.char_id "smile_01".data
        character.photos =
        some (MessengerApp.photoAssetPath character.char_id "smile_01.png".data) := by
      rw [hph]
      simp [MessengerApp.resolvePhoto]
      decide
    simp only [MessengerApp.process_character_response, hcont, if_true, ite_true, htok,
      MessengerApp.send_character_photo, hres, hfs]
    exact alookup_mapAssoc _ st.chats st.current_chat_id msgs hchat
  · intro htok
    have hcont := findPhotoToken_contains "unknown".data response htok
    have hres : MessengerApp.resolvePhoto character.char_id "unknown".data
        character.photos = none := by
      rw [hph]
      simp [MessengerApp.resolvePhoto]
      decide
    simp [MessengerApp.process_character_response, hcont, htok,
      MessengerApp.send_character_photo, hres]

/-- C8, witness: both directive scenarios evaluated on the concrete
persona, with the asset file present. -/
theorem claim8_witness :
    chC8.photos = [⟨"smile_01.png".data⟩] ∧
    alookup stC8.chats stC8.current_chat_id = some [] ∧
    MessengerApp.findPhotoToken "[PHOTO:smile_01]".data = some "smile_01".data ∧
    MessengerApp.findPhotoToken "[PHOTO:unknown]".data = some "unknown".data ∧
    alookup
      (MessengerApp.process_character_response stC8 (fun _ => true)
        "[PHOTO:smile_01]".data chC8 "alice".data).chats stC8.current_chat_id =
      some ([] ++ [MessengerApp.photoMessage stC8 "alice".data
        (MessengerApp.photoAssetPath chC8.char_id "smile_01.png".data)]) ∧
    MessengerApp.process_character_response stC8 (fun _ => true)
      "[PHOTO:unknown]".data chC8 "alice".data = stC8 :=
  ⟨rfl, rfl, rfl, rfl,
    (claim8_photo_directive stC8 (fun _ => true) chC8 "alice".data
      "[PHOTO:smile_01]".data [] rfl rfl).1 rfl rfl,
    (claim8_photo_directive stC8 (fun _ => true) chC8 "alice".data
      "[PHOTO:unknown]".data [] rfl rfl).2 rfl⟩

/-- C9, counterexample: `APIManager.send_message` with the provider name
`claude` absent from the configuration still issues one network request
(and returns the transport's reply, not an unknown-provider error),
because it branches on the provider *name*, not on registration. -/
theorem claim9_counterexample :
    alookup ([] : List (List Char × ProviderData)) "claude".data = none ∧
    (APIManager.send_message [] capsC9 netC9 "claude".data "m".data "p".data 1 300).2.length
      = 1 ∧
    (APIManager.send_message [] capsC9 netC9 "claude".data "m".data "p".data 1 300).1 =
      "hi".data :=
  ⟨rfl, rfl, by decide⟩

/-- C9 (amended): `MessengerAPI.send_message` checks registration first —
any provider name absent from the configuration yields the
unknown-provider error with zero network requests, for every prompt and
parameter set.  `APIManager.send_message` gives that guarantee only for
names outside its supported set; a supported but unregistered name (e.g.
`claude`) proceeds to its transport. -/
theorem claim9_unknown_provider :
    (∀ (config : List (List Char × ProviderData)) (caps : Caps)
        (net : NetRequest → Option (List Char)) (prompt : List Char)
        (cc : MessengerAPI.CharacterConfig),
      alookup config (MessengerAPI.resolvedProvider cc) = none →
      MessengerAPI.send_message config caps net prompt cc =
        ("Ошибка: Провайдер \x27".data ++ MessengerAPI.resolvedProvider cc ++
          "\x27 не найден в конфигурации.".data, [])) ∧
    (∀ (config : List (List Char × ProviderData)) (caps : Caps)
        (net : NetRequest → Option (List Char)) (cp cm prompt : List Char)
        (t : Rat) (mt : Int),
      cp ≠ [] → cm ≠ [] → cp ∉ APIManager.supported_providers →
      APIManager.send_message config caps net cp cm prompt t mt =
        ("Провайдер ".data ++ cp ++ " не поддерживается".data, [])) := by
  constructor
  · intro config caps net prompt cc h
    simp only [MessengerAPI.resolvedProvider] at h
    simp [MessengerAPI.send_message, h, MessengerAPI.resolvedProvider]
  · intro config caps net cp cm prompt t mt h1 h2 hns
    simp only [APIManager.supported_providers, APIManager.openai_compatible_providers,
      List.mem_cons, List.not_mem_nil, or_false, not_or] at hns
    obtain ⟨n1, n2, n3, n4, n5, n6, n7⟩ := hns
    have hmem : cp ∉ APIManager.openai_compatible_providers := by
      simp [APIManager.openai_compatible_providers, n4, n5, n6, n7]
    simp [APIManager.send_message, h1, h2, n1, n2, n3, hmem]

/-- C9, witness: the unregistered name `nope` on both dispatchers, with
an empty provider configuration. -/
theorem claim9_witness :
    alookup ([] : List (List Char × ProviderData)) (MessengerAPI.resolvedProvider ccC9)
      = none ∧
    MessengerAPI.send_message [] capsC9 netC9 "p".data ccC9 =
      ("Ошибка: Провайдер \x27".data ++ MessengerAPI.resolvedProvider ccC9 ++
        "\x27 не найден в конфигурации.".data, []) ∧
    ("nope".data ∉ APIManager.supported_providers) ∧
    APIManager.send_message [] capsC9 netC9 "nope".data "m".data "p".data 1 300 =
      ("Провайдер ".data ++ "nope".data ++ " не поддерживается".data, []) :=
  ⟨rfl,
    claim9_unknown_provider.1 [] capsC9 netC9 "p".data ccC9 rfl,
    by decide,
    claim9_unknown_provider.2 [] capsC9 netC9 "nope".data "m".data "p".data 1 300
      (by decide) (by decide) (by decide)⟩

